import Mathlib

/-!
Verification development for the `notion.endpoints.asynchronous` module of the
notion-sdk client library.  The module is a family of endpoint classes over a
shared request-issuing client: each async method filters caller kwargs through a
whitelist (`pick`), issues exactly one `client.request(path, method, query,
body, auth)` call, and decodes the JSON response into a typed object.

The embedding is shallow: Python dict/JSON values become the `Json` inductive,
`**kwargs` become association lists, and each endpoint method becomes a value of
a small free monad `ClientM` whose single effect is one `request` to the client.
Running a `ClientM` program against an oracle (the modelled client collaborator)
yields the list of requests issued plus the outcome, so one-call properties,
request-shape properties, and decode properties are all statable.

`notion.helpers`, `notion.types` and `notion.client` are not part of the given
sources; the definitions taken from the specification's description of them are
marked `Modelled from the spec:` in their doc comments.
-/

namespace NotionSdk

/-- A JSON / Python-dict value, as handed around by the client: `null` doubles
as Python `None` (a JSON `null` stored in a dict and a missing key are both
`None` to Python's `dict.get(key, None)`). -/
inductive Json where
  | null : Json
  | bool : Bool → Json
  | num : Int → Json
  | str : String → Json
  | arr : List Json → Json
  | obj : List (String × Json) → Json

/-- Keyword arguments `**kwargs`: an association list of field name to value. -/
abbrev Kwargs := List (String × Json)

/-- First-match lookup in an association list, by string key. -/
def jsonLookup (kvs : List (String × Json)) (key : String) : Option Json :=
  match kvs with
  | [] => none
  | (k, v) :: rest => if k = key then some v else jsonLookup rest key

/-- Python `kwargs.get(key, None)`: the stored value, or `None` when absent. -/
def kwargsGet (kwargs : Kwargs) (key : String) : Json :=
  (jsonLookup kwargs key).getD Json.null

/-- Python `response.get(key, None)` on a decoded JSON response: field lookup
when the response is a dict, `None` otherwise or when the key is absent. -/
def Json.pyGet (j : Json) (key : String) : Json :=
  match j with
  | .obj kvs => kwargsGet kvs key
  | _ => Json.null

/-- Python `str()` of a response field value, as interpolated into error
messages by `"...{type}".format(type=...)`.  Scalars render as Python renders
them (`None`, `True`, `False`, the digits, the raw string); container renderings
are abbreviated, which no claim depends on. -/
def Json.pystr : Json → String
  | .null => "None"
  | .bool true => "True"
  | .bool false => "False"
  | .num n => toString n
  | .str s => s
  | .arr _ => "[...]"
  | .obj _ => "\x7b...\x7d"

/-- Python `==` between a decoded JSON value and a string enum member
(`UserType` is a string-valued enum, so the comparison holds exactly when the
value is that string). -/
def Json.isStr (j : Json) (s : String) : Bool :=
  match j with
  | .str t => t = s
  | _ => false

/-- Modelled from the spec: `notion.helpers.pick` (not in the given sources) is
"whitelist selection" — "copying only recognized fields from caller input into
an outgoing request"; unknown fields are silently dropped. -/
def pick (base : Kwargs) (keys : List String) : Kwargs :=
  base.filter (fun kv => keys.contains kv.fst)

/-- One call to the collaborator's
`request(path, method, query, body, auth)`.  For `query`, `body` and `auth`,
`none` records that the keyword argument was not passed at all. -/
structure Request where
  path : String
  method : String
  query : Option Kwargs := none
  body : Option Kwargs := none
  auth : Option Json := none

/-- An endpoint-method computation over the client collaborator: it either
returns a value, raises (`ValueError` in the source), or awaits exactly the
requests it explicitly issues. -/
inductive ClientM (α : Type) where
  | pure : α → ClientM α
  | fail : String → ClientM α
  | request : Request → (Json → ClientM α) → ClientM α

/-- Run an endpoint method against an oracle standing for the client
collaborator (which may reject, modelling transport / non-2xx failure).
Returns the requests issued, in order, and the outcome. -/
def ClientM.run (oracle : Request → Except String Json) :
    ClientM α → List Request × Except String α
  | .pure a => ([], .ok a)
  | .fail e => ([], .error e)
  | .request req k =>
    match oracle req with
    | .error e => ([req], .error e)
    | .ok resp =>
      let p := ClientM.run oracle (k resp)
      (req :: p.1, p.2)

/-- Modelled from the spec: `Block` (from `notion.types`, not in the given
sources) is a plain decoded record; a concrete variant instance carries which
variant parsed it and the payload it was constructed from. -/
structure Block where
  variant : String
  payload : Json

/-- Modelled from the spec: `BLOCK_MAPPING` (from `notion.types`, not in the
given sources) is "the implicit global mapping from block-type strings to
parser classes"; its entries are left abstract, so it appears as an explicit
association list from variant tag to that variant's `parse_obj`. -/
abbrev BlockMapping := List (String × (Json → Block))

/-- Dict lookup `BLOCK_MAPPING[block_type]` guarded by
`block_type is None or block_type not in BLOCK_MAPPING`: only a string tag can
match a key of the mapping. -/
def blockParserFor (mapping : BlockMapping) : Json → Option (Json → Block)
  | Json.str s => mapping.lookup s
  | _ => none

/-- Modelled from the spec: `Database` is a plain record decoded fresh from a
JSON payload per call (`notion.types` is not in the given sources). -/
structure Database where
  payload : Json

/-- Modelled from the spec: `Database.parse_obj` constructs the record from the
raw JSON response. -/
def Database.parse_obj (j : Json) : Database := ⟨j⟩

/-- Modelled from the spec: `Page` is a plain record decoded fresh from a JSON
payload per call (`notion.types` is not in the given sources). -/
structure Page where
  payload : Json

/-- Modelled from the spec: `Page.parse_obj` constructs the record from the raw
JSON response. -/
def Page.parse_obj (j : Json) : Page := ⟨j⟩

/-- Modelled from the spec: `BotUser`, one of the two `User` variants. -/
structure BotUser where
  payload : Json

/-- Modelled from the spec: `BotUser.parse_obj` decodes a bot user from the raw
JSON response. -/
def BotUser.parse_obj (j : Json) : BotUser := ⟨j⟩

/-- Modelled from the spec: `PersonUser`, the other `User` variant. -/
structure PersonUser where
  payload : Json

/-- Modelled from the spec: `PersonUser.parse_obj` decodes a person user from
the raw JSON response. -/
def PersonUser.parse_obj (j : Json) : PersonUser := ⟨j⟩

/-- The `Union[BotUser, PersonUser]` return type of `Users.retrieve`. -/
inductive UserUnion where
  | bot : BotUser → UserUnion
  | person : PersonUser → UserUnion

/-- Modelled from the spec: `UserType.BOT` — the User discriminator tag for
bots is the string `"bot"` (`notion.types` is not in the given sources; the
spec fixes the tags by `{"type":"bot"}` decoding to a `BotUser`). -/
def UserType.BOT : String := "bot"

/-- Modelled from the spec: `UserType.PERSON` — the User discriminator tag for
persons is the string `"person"`. -/
def UserType.PERSON : String := "person"

/-- Modelled from the spec: the generic `PaginatedList[T]` wrapper — "a page of
results plus a continuation cursor and a has-more flag" (`notion.types` is not
in the given sources). -/
structure PaginatedList (α : Type) where
  results : List α
  next_cursor : Json
  has_more : Json

/-- Modelled from the spec: `PaginatedList[T].parse_obj` — "a JSON page object
with cursor and results list decodes to a wrapper exposing the same items in
order and the same cursor value", decoding each result item with the element
decoder. -/
def PaginatedList.parse_obj (dec : Json → α) (j : Json) : PaginatedList α :=
  { results := (match j.pyGet "results" with | .arr xs => xs | _ => []).map dec
    next_cursor := j.pyGet "next_cursor"
    has_more := j.pyGet "has_more" }

/-- The `Union[Page, Database]` element type of search results. -/
inductive PageOrDatabase where
  | page : Page → PageOrDatabase
  | database : Database → PageOrDatabase
  | unknown : Json → PageOrDatabase

/-- Modelled from the spec: the polymorphic decode of one search-result item —
"decodes each result item as either Page or Database based on its own
discriminator", the discriminator field being `type` (spec glossary). -/
def PageOrDatabase.parse_obj (j : Json) : PageOrDatabase :=
  match j.pyGet "type" with
  | Json.str s =>
    if s = "page" then .page (Page.parse_obj j)
    else if s = "database" then .database (Database.parse_obj j)
    else .unknown j
  | _ => .unknown j

namespace BlocksChildrenAsyncEndpoint

/-- `BlocksChildrenAsyncEndpoint.append`: PATCH `blocks/{id}/children` with body
`pick(kwargs, "children")` and no `auth` argument; on response, read
`response.get("type", None)` and either parse with the matching
`BLOCK_MAPPING` variant or raise `ValueError`.  `BLOCK_MAPPING` (not in the
given sources) is passed explicitly. -/
def append (mapping : BlockMapping) (block_id : String) (kwargs : Kwargs) :
    ClientM Block :=
  .request
    { path := "blocks/" ++ block_id ++ "/children"
      method := "PATCH"
      body := some (pick kwargs ["children"]) }
    (fun response =>
      let block_type := response.pyGet "type"
      match blockParserFor mapping block_type with
      | none => .fail "Block type not supported. Check for Notion-SDK updates."
      | some p => .pure (p response))

/-- `BlocksChildrenAsyncEndpoint.list`: GET `blocks/{id}/children` with
`auth=kwargs.get("auth", None)` and query `pick(kwargs, "start_cursor",
"page_size")`, decoded as `PaginatedList[Block]`; the element decode lives in
`notion.types` (not in the given sources), so it is the abstract `dec`. -/
def list (dec : Json → Block) (block_id : String) (kwargs : Kwargs) :
    ClientM (PaginatedList Block) :=
  .request
    { path := "blocks/" ++ block_id ++ "/children"
      method := "GET"
      auth := some (kwargsGet kwargs "auth")
      query := some (pick kwargs ["start_cursor", "page_size"]) }
    (fun response => .pure (PaginatedList.parse_obj dec response))

end BlocksChildrenAsyncEndpoint

namespace DatabasesAsyncEndpoint

/-- `DatabasesAsyncEndpoint.create`: POST `/databases` with
`auth=kwargs.get("auth", None)` and query `pick(kwargs, "start_cursor")`; no
`body` argument is passed at all. -/
def create (kwargs : Kwargs) : ClientM Database :=
  .request
    { method := "POST"
      path := "/databases"
      auth := some (kwargsGet kwargs "auth")
      query := some (pick kwargs ["start_cursor"]) }
    (fun response => .pure (Database.parse_obj response))

/-- `DatabasesAsyncEndpoint.list`: GET `/databases` with query
`pick(kwargs, "start_cursor", "page_size")`. -/
def list (kwargs : Kwargs) : ClientM (PaginatedList Database) :=
  .request
    { method := "GET"
      path := "/databases"
      auth := some (kwargsGet kwargs "auth")
      query := some (pick kwargs ["start_cursor", "page_size"]) }
    (fun response => .pure (PaginatedList.parse_obj Database.parse_obj response))

/-- `DatabasesAsyncEndpoint.query`: POST `/databases/{id}/query` with body
`pick(kwargs, "filter", "sorts", "start_cursor", "page_size")`. -/
def query (database_id : String) (kwargs : Kwargs) :
    ClientM (PaginatedList Page) :=
  .request
    { method := "POST"
      path := "/databases/" ++ database_id ++ "/query"
      auth := some (kwargsGet kwargs "auth")
      body := some (pick kwargs ["filter", "sorts", "start_cursor", "page_size"]) }
    (fun response => .pure (PaginatedList.parse_obj Page.parse_obj response))

/-- `DatabasesAsyncEndpoint.retrieve`: GET `/databases/{id}`, no query or
body. -/
def retrieve (database_id : String) (kwargs : Kwargs) : ClientM Database :=
  .request
    { method := "GET"
      path := "/databases/" ++ database_id
      auth := some (kwargsGet kwargs "auth") }
    (fun response => .pure (Database.parse_obj response))

end DatabasesAsyncEndpoint

namespace PagesAsyncEndpoint

/-- `PagesAsyncEndpoint.create`: POST `/pages` with body
`pick(kwargs, "parent", "properties", "children")`. -/
def create (kwargs : Kwargs) : ClientM Page :=
  .request
    { method := "POST"
      path := "/pages"
      auth := some (kwargsGet kwargs "auth")
      body := some (pick kwargs ["parent", "properties", "children"]) }
    (fun response => .pure (Page.parse_obj response))

/-- `PagesAsyncEndpoint.retrieve`: GET `pages/{id}`, no query or body. -/
def retrieve (page_id : String) (kwargs : Kwargs) : ClientM Page :=
  .request
    { method := "GET"
      path := "pages/" ++ page_id
      auth := some (kwargsGet kwargs "auth") }
    (fun response => .pure (Page.parse_obj response))

/-- `PagesAsyncEndpoint.update`: PATCH `pages/{id}` with body
`pick(kwargs, "archived", "properties")`. -/
def update (page_id : String) (kwargs : Kwargs) : ClientM Page :=
  .request
    { method := "PATCH"
      path := "pages/" ++ page_id
      auth := some (kwargsGet kwargs "auth")
      body := some (pick kwargs ["archived", "properties"]) }
    (fun response => .pure (Page.parse_obj response))

end PagesAsyncEndpoint

namespace UsersAsyncEndpoint

/-- The result type of `Users.list`: a `PaginatedList[User]` whose element
decode lives in `notion.types` (not in the given sources), kept abstract. -/
def list (dec : Json → UserUnion) (kwargs : Kwargs) :
    ClientM (PaginatedList UserUnion) :=
  .request
    { method := "GET"
      path := "/users"
      auth := some (kwargsGet kwargs "auth")
      query := some (pick kwargs ["start_cursor", "page_size"]) }
    (fun response => .pure (PaginatedList.parse_obj dec response))

/-- `UsersAsyncEndpoint.retrieve`: GET `/users/{id}`; then branch on
`response.get("type", None)` against `UserType.BOT` / `UserType.PERSON`, else
raise `ValueError` interpolating the offending type value. -/
def retrieve (user_id : String) (kwargs : Kwargs) : ClientM UserUnion :=
  .request
    { method := "GET"
      path := "/users/" ++ user_id
      auth := some (kwargsGet kwargs "auth") }
    (fun response =>
      let user_type := response.pyGet "type"
      if user_type.isStr UserType.BOT then
        .pure (.bot (BotUser.parse_obj response))
      else if user_type.isStr UserType.PERSON then
        .pure (.person (PersonUser.parse_obj response))
      else
        .fail ("Could not decode User object with type " ++ user_type.pystr))

end UsersAsyncEndpoint

namespace SearchAsyncEndpoint

/-- `SearchAsyncEndpoint.__call__`: POST `/search` with body
`pick(kwargs, "query", "sort", "filter", "start_cursor", "page_size")`, decoded
as `PaginatedList[Union[Page, Database]]`. -/
def call (kwargs : Kwargs) : ClientM (PaginatedList PageOrDatabase) :=
  .request
    { path := "/search"
      method := "POST"
      auth := some (kwargsGet kwargs "auth")
      body := some (pick kwargs ["query", "sort", "filter", "start_cursor", "page_size"]) }
    (fun response => .pure (PaginatedList.parse_obj PageOrDatabase.parse_obj response))

end SearchAsyncEndpoint

/-! ### Running one-shot endpoint programs -/

/-- A program that issues one request and whose continuation only returns or
raises issues exactly that request, whatever the oracle answers. -/
theorem run_request_fst {α : Type} (oracle : Request → Except String Json)
    (req : Request) (k : Json → ClientM α)
    (h : ∀ resp, (ClientM.run oracle (k resp)).1 = []) :
    (ClientM.run oracle (ClientM.request req k)).1 = [req] := by
  cases horacle : oracle req <;> simp [ClientM.run, horacle, h]

/-- When the oracle accepts the issued request, the outcome is the
continuation's outcome on the oracle's response. -/
theorem run_request_snd {α : Type} (oracle : Request → Except String Json)
    (req : Request) (k : Json → ClientM α) (resp : Json)
    (h : oracle req = .ok resp) :
    (ClientM.run oracle (ClientM.request req k)).2
      = (ClientM.run oracle (k resp)).2 := by
  simp [ClientM.run, h]

/-- `Blocks.children.append` issues exactly its one PATCH request. -/
theorem append_trace (oracle : Request → Except String Json)
    (mapping : BlockMapping) (block_id : String) (kwargs : Kwargs) :
    (ClientM.run oracle (BlocksChildrenAsyncEndpoint.append mapping block_id kwargs)).1
      = [{ path := "blocks/" ++ block_id ++ "/children", method := "PATCH",
           query := none, body := some (pick kwargs ["children"]), auth := none }] := by
  apply run_request_fst
  intro resp
  cases hb : blockParserFor mapping (resp.pyGet "type") <;> simp [ClientM.run, hb]

/-- `Blocks.children.list` issues exactly its one GET request. -/
theorem blocks_list_trace (oracle : Request → Except String Json)
    (dec : Json → Block) (block_id : String) (kwargs : Kwargs) :
    (ClientM.run oracle (BlocksChildrenAsyncEndpoint.list dec block_id kwargs)).1
      = [{ path := "blocks/" ++ block_id ++ "/children", method := "GET",
           query := some (pick kwargs ["start_cursor", "page_size"]), body := none,
           auth := some (kwargsGet kwargs "auth") }] := by
  apply run_request_fst
  intro resp
  rfl

/-- `Databases.create` issues exactly its one POST request. -/
theorem databases_create_trace (oracle : Request → Except String Json)
    (kwargs : Kwargs) :
    (ClientM.run oracle (DatabasesAsyncEndpoint.create kwargs)).1
      = [{ path := "/databases", method := "POST",
           query := some (pick kwargs ["start_cursor"]), body := none,
           auth := some (kwargsGet kwargs "auth") }] := by
  apply run_request_fst
  intro resp
  rfl

/-- `Databases.list` issues exactly its one GET request. -/
theorem databases_list_trace (oracle : Request → Except String Json)
    (kwargs : Kwargs) :
    (ClientM.run oracle (DatabasesAsyncEndpoint.list kwargs)).1
      = [{ path := "/databases", method := "GET",
           query := some (pick kwargs ["start_cursor", "page_size"]), body := none,
           auth := some (kwargsGet kwargs "auth") }] := by
  apply run_request_fst
  intro resp
  rfl

/-- `Databases.query` issues exactly its one POST request. -/
theorem databases_query_trace (oracle : Request → Except String Json)
    (database_id : String) (kwargs : Kwargs) :
    (ClientM.run oracle (DatabasesAsyncEndpoint.query database_id kwargs)).1
      = [{ path := "/databases/" ++ database_id ++ "/query", method := "POST",
           query := none,
           body := some (pick kwargs ["filter", "sorts", "start_cursor", "page_size"]),
           auth := some (kwargsGet kwargs "auth") }] := by
  apply run_request_fst
  intro resp
  rfl

/-- `Databases.retrieve` issues exactly its one GET request. -/
theorem databases_retrieve_trace (oracle : Request → Except String Json)
    (database_id : String) (kwargs : Kwargs) :
    (ClientM.run oracle (DatabasesAsyncEndpoint.retrieve database_id kwargs)).1
      = [{ path := "/databases/" ++ database_id, method := "GET",
           query := none, body := none,
           auth := some (kwargsGet kwargs "auth") }] := by
  apply run_request_fst
  intro resp
  rfl

/-- `Pages.create` issues exactly its one POST request. -/
theorem pages_create_trace (oracle : Request → Except String Json)
    (kwargs : Kwargs) :
    (ClientM.run oracle (PagesAsyncEndpoint.create kwargs)).1
      = [{ path := "/pages", method := "POST",
           query := none,
           body := some (pick kwargs ["parent", "properties", "children"]),
           auth := some (kwargsGet kwargs "auth") }] := by
  apply run_request_fst
  intro resp
  rfl

/-- `Pages.retrieve` issues exactly its one GET request. -/
theorem pages_retrieve_trace (oracle : Request → Except String Json)
    (page_id : String) (kwargs : Kwargs) :
    (ClientM.run oracle (PagesAsyncEndpoint.retrieve page_id kwargs)).1
      = [{ path := "pages/" ++ page_id, method := "GET",
           query := none, body := none,
           auth := some (kwargsGet kwargs "auth") }] := by
  apply run_request_fst
  intro resp
  rfl

/-- `Pages.update` issues exactly its one PATCH request. -/
theorem pages_update_trace (oracle : Request → Except String Json)
    (page_id : String) (kwargs : Kwargs) :
    (ClientM.run oracle (PagesAsyncEndpoint.update page_id kwargs)).1
      = [{ path := "pages/" ++ page_id, method := "PATCH",
           query := none,
           body := some (pick kwargs ["archived", "properties"]),
           auth := some (kwargsGet kwargs "auth") }] := by
  apply run_request_fst
  intro resp
  rfl

/-- `Users.list` issues exactly its one GET request. -/
theorem users_list_trace (oracle : Request → Except String Json)
    (dec : Json → UserUnion) (kwargs : Kwargs) :
    (ClientM.run oracle (UsersAsyncEndpoint.list dec kwargs)).1
      = [{ path := "/users", method := "GET",
           query := some (pick kwargs ["start_cursor", "page_size"]), body := none,
           auth := some (kwargsGet kwargs "auth") }] := by
  apply run_request_fst
  intro resp
  rfl

/-- `Users.retrieve` issues exactly its one GET request. -/
theorem users_retrieve_trace (oracle : Request → Except String Json)
    (user_id : String) (kwargs : Kwargs) :
    (ClientM.run oracle (UsersAsyncEndpoint.retrieve user_id kwargs)).1
      = [{ path := "/users/" ++ user_id, method := "GET",
           query := none, body := none,
           auth := some (kwargsGet kwargs "auth") }] := by
  apply run_request_fst
  intro resp
  cases hb : (resp.pyGet "type").isStr UserType.BOT <;>
    cases hp : (resp.pyGet "type").isStr UserType.PERSON <;>
      simp [ClientM.run, hb, hp]

/-- `Search.__call__` issues exactly its one POST request. -/
theorem search_trace (oracle : Request → Except String Json) (kwargs : Kwargs) :
    (ClientM.run oracle (SearchAsyncEndpoint.call kwargs)).1
      = [{ path := "/search", method := "POST",
           query := none,
           body := some (pick kwargs ["query", "sort", "filter", "start_cursor", "page_size"]),
           auth := some (kwargsGet kwargs "auth") }] := by
  apply run_request_fst
  intro resp
  rfl

/-! ### Whitelist selection -/

/-- Every key of a picked mapping comes from the whitelist. -/
theorem pick_keys_subset (kwargs : Kwargs) (keys : List String) :
    (pick kwargs keys).map Prod.fst ⊆ keys := by
  intro a ha
  simp only [pick, List.mem_map, List.mem_filter] at ha
  obtain ⟨kv, ⟨_, hc⟩, rfl⟩ := ha
  simpa using hc

/-- Whitelist selection is idempotent. -/
theorem pick_idem (kwargs : Kwargs) (keys : List String) :
    pick (pick kwargs keys) keys = pick kwargs keys := by
  simp [pick, List.filter_filter]

/-- Membership in a picked mapping: exactly the caller's own entries whose key
is whitelisted. -/
theorem mem_pick (kwargs : Kwargs) (keys : List String) (k : String) (v : Json) :
    (k, v) ∈ pick kwargs keys ↔ ((k, v) ∈ kwargs ∧ k ∈ keys) := by
  simp [pick, List.mem_filter]

/-- A sample block-variant parser, for instantiating the abstract
`BLOCK_MAPPING` on concrete inputs. -/
def paragraphBlock (j : Json) : Block :=
  { variant := "paragraph", payload := j }

/-- A sample one-variant `BLOCK_MAPPING`. -/
def sampleMapping : BlockMapping := [("paragraph", paragraphBlock)]

/-! ### Claims -/

/-- C1: for every `database_id` and kwargs mapping, `Databases.query` issues
exactly a POST to `/databases/{id}/query` whose body contains exactly the keys
of `{filter, sorts, start_cursor, page_size}` present in kwargs, with their
kwargs values, and no other keys. -/
theorem databases_query_posts_picked_body (database_id : String) (kwargs : Kwargs)
    (oracle : Request → Except String Json) :
    (ClientM.run oracle (DatabasesAsyncEndpoint.query database_id kwargs)).1
      = [{ path := "/databases/" ++ database_id ++ "/query", method := "POST",
           query := none,
           body := some (pick kwargs ["filter", "sorts", "start_cursor", "page_size"]),
           auth := some (kwargsGet kwargs "auth") }]
    ∧ ∀ (k : String) (v : Json),
        ((k, v) ∈ pick kwargs ["filter", "sorts", "start_cursor", "page_size"] ↔
          ((k, v) ∈ kwargs ∧
            (k = "filter" ∨ k = "sorts" ∨ k = "start_cursor" ∨ k = "page_size"))) := by
  refine ⟨databases_query_trace oracle database_id kwargs, ?_⟩
  intro k v
  rw [mem_pick]
  simp

/-- C10: for every kwargs mapping, `Databases.create` issues a POST to
`/databases` whose only payload is a query mapping containing at most the
`start_cursor` key from kwargs, and sends no body at all — caller-supplied
database-definition fields are dropped and never transmitted. -/
theorem databases_create_sends_no_body (kwargs : Kwargs)
    (oracle : Request → Except String Json) :
    (ClientM.run oracle (DatabasesAsyncEndpoint.create kwargs)).1
      = [{ path := "/databases", method := "POST",
           query := some (pick kwargs ["start_cursor"]), body := none,
           auth := some (kwargsGet kwargs "auth") }]
    ∧ ∀ (k : String) (v : Json),
        ((k, v) ∈ pick kwargs ["start_cursor"] ↔
          ((k, v) ∈ kwargs ∧ k = "start_cursor")) := by
  refine ⟨databases_create_trace oracle kwargs, ?_⟩
  intro k v
  rw [mem_pick]
  simp

/-- C9: `Blocks.children.append` issues its request with no auth argument, even
when kwargs contains an `auth` key, while every other endpoint method forwards
`kwargs.get("auth", None)` to the client. -/
theorem append_omits_auth_others_forward
    (oracle : Request → Except String Json) (mapping : BlockMapping)
    (dec : Json → Block) (udec : Json → UserUnion)
    (block_id database_id page_id user_id : String) (kwargs : Kwargs) :
    ((ClientM.run oracle (BlocksChildrenAsyncEndpoint.append mapping block_id kwargs)).1.map
        Request.auth = [none])
    ∧ ((ClientM.run oracle (BlocksChildrenAsyncEndpoint.list dec block_id kwargs)).1.map
        Request.auth = [some (kwargsGet kwargs "auth")])
    ∧ ((ClientM.run oracle (DatabasesAsyncEndpoint.create kwargs)).1.map
        Request.auth = [some (kwargsGet kwargs "auth")])
    ∧ ((ClientM.run oracle (DatabasesAsyncEndpoint.list kwargs)).1.map
        Request.auth = [some (kwargsGet kwargs "auth")])
    ∧ ((ClientM.run oracle (DatabasesAsyncEndpoint.query database_id kwargs)).1.map
        Request.auth = [some (kwargsGet kwargs "auth")])
    ∧ ((ClientM.run oracle (DatabasesAsyncEndpoint.retrieve database_id kwargs)).1.map
        Request.auth = [some (kwargsGet kwargs "auth")])
    ∧ ((ClientM.run oracle (PagesAsyncEndpoint.create kwargs)).1.map
        Request.auth = [some (kwargsGet kwargs "auth")])
    ∧ ((ClientM.run oracle (PagesAsyncEndpoint.retrieve page_id kwargs)).1.map
        Request.auth = [some (kwargsGet kwargs "auth")])
    ∧ ((ClientM.run oracle (PagesAsyncEndpoint.update page_id kwargs)).1.map
        Request.auth = [some (kwargsGet kwargs "auth")])
    ∧ ((ClientM.run oracle (UsersAsyncEndpoint.list udec kwargs)).1.map
        Request.auth = [some (kwargsGet kwargs "auth")])
    ∧ ((ClientM.run oracle (UsersAsyncEndpoint.retrieve user_id kwargs)).1.map
        Request.auth = [some (kwargsGet kwargs "auth")])
    ∧ ((ClientM.run oracle (SearchAsyncEndpoint.call kwargs)).1.map
        Request.auth = [some (kwargsGet kwargs "auth")]) := by
  simp [append_trace, blocks_list_trace, databases_create_trace, databases_list_trace,
    databases_query_trace, databases_retrieve_trace, pages_create_trace,
    pages_retrieve_trace, pages_update_trace, users_list_trace,
    users_retrieve_trace, search_trace]

/-- C6: every endpoint method invocation issues exactly one call to the
client's request operation — never zero, never more — regardless of the
response: no retry on failure and no follow-up pagination call. -/
theorem each_method_issues_one_request
    (oracle : Request → Except String Json) (mapping : BlockMapping)
    (dec : Json → Block) (udec : Json → UserUnion)
    (block_id database_id page_id user_id : String) (kwargs : Kwargs) :
    ((ClientM.run oracle (BlocksChildrenAsyncEndpoint.append mapping block_id kwargs)).1.length = 1)
    ∧ ((ClientM.run oracle (BlocksChildrenAsyncEndpoint.list dec block_id kwargs)).1.length = 1)
    ∧ ((ClientM.run oracle (DatabasesAsyncEndpoint.create kwargs)).1.length = 1)
    ∧ ((ClientM.run oracle (DatabasesAsyncEndpoint.list kwargs)).1.length = 1)
    ∧ ((ClientM.run oracle (DatabasesAsyncEndpoint.query database_id kwargs)).1.length = 1)
    ∧ ((ClientM.run oracle (DatabasesAsyncEndpoint.retrieve database_id kwargs)).1.length = 1)
    ∧ ((ClientM.run oracle (PagesAsyncEndpoint.create kwargs)).1.length = 1)
    ∧ ((ClientM.run oracle (PagesAsyncEndpoint.retrieve page_id kwargs)).1.length = 1)
    ∧ ((ClientM.run oracle (PagesAsyncEndpoint.update page_id kwargs)).1.length = 1)
    ∧ ((ClientM.run oracle (UsersAsyncEndpoint.list udec kwargs)).1.length = 1)
    ∧ ((ClientM.run oracle (UsersAsyncEndpoint.retrieve user_id kwargs)).1.length = 1)
    ∧ ((ClientM.run oracle (SearchAsyncEndpoint.call kwargs)).1.length = 1) := by
  simp [append_trace, blocks_list_trace, databases_create_trace, databases_list_trace,
    databases_query_trace, databases_retrieve_trace, pages_create_trace,
    pages_retrieve_trace, pages_update_trace, users_list_trace,
    users_retrieve_trace, search_trace]

/-- C7: every call an endpoint method makes to the client uses an HTTP method
drawn from `{GET, POST, PATCH}` and a path built from a fixed string-literal
template, only the identifier placeholder varying. -/
theorem methods_and_paths_fixed
    (oracle : Request → Except String Json) (mapping : BlockMapping)
    (dec : Json → Block) (udec : Json → UserUnion)
    (block_id database_id page_id user_id : String) (kwargs : Kwargs) :
    ((ClientM.run oracle (BlocksChildrenAsyncEndpoint.append mapping block_id kwargs)).1.map
        Request.method ⊆ ["GET", "POST", "PATCH"]
      ∧ (ClientM.run oracle (BlocksChildrenAsyncEndpoint.append mapping block_id kwargs)).1.map
        Request.path = ["blocks/" ++ block_id ++ "/children"])
    ∧ ((ClientM.run oracle (BlocksChildrenAsyncEndpoint.list dec block_id kwargs)).1.map
        Request.method ⊆ ["GET", "POST", "PATCH"]
      ∧ (ClientM.run oracle (BlocksChildrenAsyncEndpoint.list dec block_id kwargs)).1.map
        Request.path = ["blocks/" ++ block_id ++ "/children"])
    ∧ ((ClientM.run oracle (DatabasesAsyncEndpoint.create kwargs)).1.map
        Request.method ⊆ ["GET", "POST", "PATCH"]
      ∧ (ClientM.run oracle (DatabasesAsyncEndpoint.create kwargs)).1.map
        Request.path = ["/databases"])
    ∧ ((ClientM.run oracle (DatabasesAsyncEndpoint.list kwargs)).1.map
        Request.method ⊆ ["GET", "POST", "PATCH"]
      ∧ (ClientM.run oracle (DatabasesAsyncEndpoint.list kwargs)).1.map
        Request.path = ["/databases"])
    ∧ ((ClientM.run oracle (DatabasesAsyncEndpoint.query database_id kwargs)).1.map
        Request.method ⊆ ["GET", "POST", "PATCH"]
      ∧ (ClientM.run oracle (DatabasesAsyncEndpoint.query database_id kwargs)).1.map
        Request.path = ["/databases/" ++ database_id ++ "/query"])
    ∧ ((ClientM.run oracle (DatabasesAsyncEndpoint.retrieve database_id kwargs)).1.map
        Request.method ⊆ ["GET", "POST", "PATCH"]
      ∧ (ClientM.run oracle (DatabasesAsyncEndpoint.retrieve database_id kwargs)).1.map
        Request.path = ["/databases/" ++ database_id])
    ∧ ((ClientM.run oracle (PagesAsyncEndpoint.create kwargs)).1.map
        Request.method ⊆ ["GET", "POST", "PATCH"]
      ∧ (ClientM.run oracle (PagesAsyncEndpoint.create kwargs)).1.map
        Request.path = ["/pages"])
    ∧ ((ClientM.run oracle (PagesAsyncEndpoint.retrieve page_id kwargs)).1.map
        Request.method ⊆ ["GET", "POST", "PATCH"]
      ∧ (ClientM.run oracle (PagesAsyncEndpoint.retrieve page_id kwargs)).1.map
        Request.path = ["pages/" ++ page_id])
    ∧ ((ClientM.run oracle (PagesAsyncEndpoint.update page_id kwargs)).1.map
        Request.method ⊆ ["GET", "POST", "PATCH"]
      ∧ (ClientM.run oracle (PagesAsyncEndpoint.update page_id kwargs)).1.map
        Request.path = ["pages/" ++ page_id])
    ∧ ((ClientM.run oracle (UsersAsyncEndpoint.list udec kwargs)).1.map
        Request.method ⊆ ["GET", "POST", "PATCH"]
      ∧ (ClientM.run oracle (UsersAsyncEndpoint.list udec kwargs)).1.map
        Request.path = ["/users"])
    ∧ ((ClientM.run oracle (UsersAsyncEndpoint.retrieve user_id kwargs)).1.map
        Request.method ⊆ ["GET", "POST", "PATCH"]
      ∧ (ClientM.run oracle (UsersAsyncEndpoint.retrieve user_id kwargs)).1.map
        Request.path = ["/users/" ++ user_id])
    ∧ ((ClientM.run oracle (SearchAsyncEndpoint.call kwargs)).1.map
        Request.method ⊆ ["GET", "POST", "PATCH"]
      ∧ (ClientM.run oracle (SearchAsyncEndpoint.call kwargs)).1.map
        Request.path = ["/search"]) := by
  simp [append_trace, blocks_list_trace, databases_create_trace, databases_list_trace,
    databases_query_trace, databases_retrieve_trace, pages_create_trace,
    pages_retrieve_trace, pages_update_trace, users_list_trace,
    users_retrieve_trace, search_trace]

/-- C2: `Users.retrieve` returns a `BotUser` when the response's `type` field
is the bot tag, a `PersonUser` when it is the person tag, and fails for any
other or missing `type`. -/
theorem users_retrieve_decodes_by_user_type (user_id : String) (kwargs : Kwargs)
    (kvs : List (String × Json)) :
    (((Json.obj kvs).pyGet "type" = Json.str UserType.BOT →
      (ClientM.run (fun _ => .ok (Json.obj kvs))
          (UsersAsyncEndpoint.retrieve user_id kwargs)).2
        = .ok (.bot (BotUser.parse_obj (Json.obj kvs)))))
    ∧ (((Json.obj kvs).pyGet "type" = Json.str UserType.PERSON →
      (ClientM.run (fun _ => .ok (Json.obj kvs))
          (UsersAsyncEndpoint.retrieve user_id kwargs)).2
        = .ok (.person (PersonUser.parse_obj (Json.obj kvs)))))
    ∧ ((((Json.obj kvs).pyGet "type").isStr UserType.BOT = false →
        ((Json.obj kvs).pyGet "type").isStr UserType.PERSON = false →
      ∃ e, (ClientM.run (fun _ => .ok (Json.obj kvs))
          (UsersAsyncEndpoint.retrieve user_id kwargs)).2 = .error e)) := by
  refine ⟨?_, ?_, ?_⟩
  · intro h
    simp [UsersAsyncEndpoint.retrieve, ClientM.run, h, Json.isStr, UserType.BOT]
  · intro h
    simp [UsersAsyncEndpoint.retrieve, ClientM.run, h, Json.isStr,
      UserType.BOT, UserType.PERSON]
  · intro hb hp
    refine ⟨"Could not decode User object with type "
      ++ ((Json.obj kvs).pyGet "type").pystr, ?_⟩
    simp [UsersAsyncEndpoint.retrieve, ClientM.run, hb, hp]

/-- Witness for C2 at the spec's own examples: `{"type":"bot"}` decodes to a
bot, `{"type":"person"}` to a person, `{"type":"robot"}` fails. -/
theorem users_retrieve_decodes_by_user_type_witness :
    ((ClientM.run (fun _ => Except.ok (Json.obj [("type", Json.str "bot")]))
        (UsersAsyncEndpoint.retrieve "u1" [])).2
      = Except.ok (UserUnion.bot (BotUser.parse_obj (Json.obj [("type", Json.str "bot")]))))
    ∧ ((ClientM.run (fun _ => Except.ok (Json.obj [("type", Json.str "person")]))
        (UsersAsyncEndpoint.retrieve "u1" [])).2
      = Except.ok (UserUnion.person (PersonUser.parse_obj (Json.obj [("type", Json.str "person")]))))
    ∧ (∃ e, (ClientM.run (fun _ => Except.ok (Json.obj [("type", Json.str "robot")]))
        (UsersAsyncEndpoint.retrieve "u1" [])).2 = Except.error e) :=
  ⟨(users_retrieve_decodes_by_user_type "u1" [] [("type", Json.str "bot")]).1 rfl,
   (users_retrieve_decodes_by_user_type "u1" [] [("type", Json.str "person")]).2.1 rfl,
   (users_retrieve_decodes_by_user_type "u1" [] [("type", Json.str "robot")]).2.2 rfl rfl⟩

/-- C3: `Blocks.children.append` returns the matching variant's decode of the
response when the response's `type` is a key of the block-variant mapping, and
fails with the decode error — and no other outcome — when the `type` is missing
or unknown. -/
theorem blocks_append_decodes_by_block_type (mapping : BlockMapping)
    (block_id : String) (kwargs : Kwargs) (kvs : List (String × Json)) :
    (∀ (s : String) (p : Json → Block),
        (Json.obj kvs).pyGet "type" = Json.str s → mapping.lookup s = some p →
        (ClientM.run (fun _ => .ok (Json.obj kvs))
            (BlocksChildrenAsyncEndpoint.append mapping block_id kwargs)).2
          = .ok (p (Json.obj kvs)))
    ∧ (blockParserFor mapping ((Json.obj kvs).pyGet "type") = none →
        (ClientM.run (fun _ => .ok (Json.obj kvs))
            (BlocksChildrenAsyncEndpoint.append mapping block_id kwargs)).2
          = .error "Block type not supported. Check for Notion-SDK updates.") := by
  constructor
  · intro s p hs hp
    simp [BlocksChildrenAsyncEndpoint.append, ClientM.run, hs, blockParserFor, hp]
  · intro h
    simp [BlocksChildrenAsyncEndpoint.append, ClientM.run, h]

/-- Witness for C3: with a one-variant mapping, a `paragraph`-typed response
decodes through that variant's parser, and a `robot`-typed response fails with
the decode error. -/
theorem blocks_append_decodes_by_block_type_witness :
    ((ClientM.run (fun _ => Except.ok (Json.obj [("type", Json.str "paragraph")]))
        (BlocksChildrenAsyncEndpoint.append sampleMapping "b1" [])).2
      = Except.ok (paragraphBlock (Json.obj [("type", Json.str "paragraph")])))
    ∧ ((ClientM.run (fun _ => Except.ok (Json.obj [("type", Json.str "robot")]))
        (BlocksChildrenAsyncEndpoint.append sampleMapping "b1" [])).2
      = Except.error "Block type not supported. Check for Notion-SDK updates.") :=
  ⟨(blocks_append_decodes_by_block_type sampleMapping "b1" []
      [("type", Json.str "paragraph")]).1 "paragraph" paragraphBlock rfl rfl,
   (blocks_append_decodes_by_block_type sampleMapping "b1" []
      [("type", Json.str "robot")]).2 rfl⟩

/-- C4 counterexample: when `Blocks.children.append` receives an unrecognized
`type` (`"robot"`), its decode error is the fixed message
`"Block type not supported. Check for Notion-SDK updates."`, which does not
contain the offending tag — refuting the claim that both `append` and
`Users.retrieve` carry the offending tag value as diagnostic context. -/
theorem append_decode_error_omits_tag :
    ((ClientM.run (fun _ => Except.ok (Json.obj [("type", Json.str "robot")]))
        (BlocksChildrenAsyncEndpoint.append sampleMapping "b1" [])).2
      = Except.error "Block type not supported. Check for Notion-SDK updates.")
    ∧ ¬ List.IsInfix ("robot".toList)
        ("Block type not supported. Check for Notion-SDK updates.".toList) := by
  constructor
  · rfl
  · decide

/-- C4 amended: only `Users.retrieve`'s decode error carries the offending tag
value (the string tag itself, or `None` when the field is missing/null);
`Blocks.children.append` fails with a fixed message independent of the tag. -/
theorem decode_error_tag_context_amended (user_id : String) (kwargs : Kwargs)
    (kvs : List (String × Json)) (mapping : BlockMapping) (block_id : String)
    (kwargs2 : Kwargs) (resp : Json) :
    (∀ s : String, (Json.obj kvs).pyGet "type" = Json.str s →
        s ≠ UserType.BOT → s ≠ UserType.PERSON →
        ((ClientM.run (fun _ => .ok (Json.obj kvs))
            (UsersAsyncEndpoint.retrieve user_id kwargs)).2
          = .error ("Could not decode User object with type " ++ s)
        ∧ List.IsInfix s.toList
            ("Could not decode User object with type " ++ s).toList))
    ∧ ((Json.obj kvs).pyGet "type" = Json.null →
        ((ClientM.run (fun _ => .ok (Json.obj kvs))
            (UsersAsyncEndpoint.retrieve user_id kwargs)).2
          = .error "Could not decode User object with type None"
        ∧ List.IsInfix "None".toList
            "Could not decode User object with type None".toList))
    ∧ (blockParserFor mapping (resp.pyGet "type") = none →
        (ClientM.run (fun _ => .ok resp)
            (BlocksChildrenAsyncEndpoint.append mapping block_id kwargs2)).2
          = .error "Block type not supported. Check for Notion-SDK updates.") := by
  refine ⟨?_, ?_, ?_⟩
  · intro s hs hb hp
    have hb' : Json.isStr (Json.str s) UserType.BOT = false := by
      simp [Json.isStr, hb]
    have hp' : Json.isStr (Json.str s) UserType.PERSON = false := by
      simp [Json.isStr, hp]
    constructor
    · simp [UsersAsyncEndpoint.retrieve, ClientM.run, hs, hb', hp', Json.pystr]
    · show s.data <:+: ("Could not decode User object with type " ++ s).data
      rw [String.data_append]
      exact (List.suffix_append _ _).isInfix
  · intro h
    constructor
    · simp [UsersAsyncEndpoint.retrieve, ClientM.run, h, Json.isStr, Json.pystr]
    · decide
  · intro h
    simp [BlocksChildrenAsyncEndpoint.append, ClientM.run, h]

/-- Witness for the amended C4: a `robot`-typed user response fails with a
message containing `robot`; a response with no `type` fails with a message
containing `None`; a `robot`-typed block response fails with the fixed append
message. -/
theorem decode_error_tag_context_amended_witness :
    (((ClientM.run (fun _ => Except.ok (Json.obj [("type", Json.str "robot")]))
          (UsersAsyncEndpoint.retrieve "u1" [])).2
        = Except.error ("Could not decode User object with type " ++ "robot")
      ∧ List.IsInfix "robot".toList
          ("Could not decode User object with type " ++ "robot").toList))
    ∧ (((ClientM.run (fun _ => Except.ok (Json.obj []))
          (UsersAsyncEndpoint.retrieve "u1" [])).2
        = Except.error "Could not decode User object with type None"
      ∧ List.IsInfix "None".toList
          "Could not decode User object with type None".toList))
    ∧ ((ClientM.run (fun _ => Except.ok (Json.obj [("type", Json.str "robot")]))
          (BlocksChildrenAsyncEndpoint.append sampleMapping "b1" [])).2
        = Except.error "Block type not supported. Check for Notion-SDK updates.") :=
  ⟨(decode_error_tag_context_amended "u1" [] [("type", Json.str "robot")]
      sampleMapping "b1" [] (Json.obj [("type", Json.str "robot")])).1
      "robot" rfl (by decide) (by decide),
   (decode_error_tag_context_amended "u1" [] [] sampleMapping "b1" []
      (Json.obj [])).2.1 rfl,
   (decode_error_tag_context_amended "u1" [] [] sampleMapping "b1" []
      (Json.obj [("type", Json.str "robot")])).2.2 rfl⟩

/-- C5: for every endpoint method and kwargs mapping, the outgoing query/body
is the whitelist selection for that method — keys outside the whitelist are
silently dropped (the request is still issued) — and whitelist filtering is
idempotent. -/
theorem whitelist_filtering_silent_and_idempotent
    (oracle : Request → Except String Json) (mapping : BlockMapping)
    (dec : Json → Block) (udec : Json → UserUnion)
    (block_id database_id page_id user_id : String)
    (kwargs : Kwargs) (keys : List String) :
    ((pick kwargs keys).map Prod.fst ⊆ keys)
    ∧ (pick (pick kwargs keys) keys = pick kwargs keys)
    ∧ ((ClientM.run oracle (BlocksChildrenAsyncEndpoint.append mapping block_id kwargs)).1.map
          Request.body = [some (pick kwargs ["children"])]
      ∧ (ClientM.run oracle (BlocksChildrenAsyncEndpoint.append mapping block_id kwargs)).1.map
          Request.query = [none])
    ∧ ((ClientM.run oracle (BlocksChildrenAsyncEndpoint.list dec block_id kwargs)).1.map
          Request.query = [some (pick kwargs ["start_cursor", "page_size"])]
      ∧ (ClientM.run oracle (BlocksChildrenAsyncEndpoint.list dec block_id kwargs)).1.map
          Request.body = [none])
    ∧ ((ClientM.run oracle (DatabasesAsyncEndpoint.create kwargs)).1.map
          Request.query = [some (pick kwargs ["start_cursor"])]
      ∧ (ClientM.run oracle (DatabasesAsyncEndpoint.create kwargs)).1.map
          Request.body = [none])
    ∧ ((ClientM.run oracle (DatabasesAsyncEndpoint.list kwargs)).1.map
          Request.query = [some (pick kwargs ["start_cursor", "page_size"])]
      ∧ (ClientM.run oracle (DatabasesAsyncEndpoint.list kwargs)).1.map
          Request.body = [none])
    ∧ ((ClientM.run oracle (DatabasesAsyncEndpoint.query database_id kwargs)).1.map
          Request.body = [some (pick kwargs ["filter", "sorts", "start_cursor", "page_size"])]
      ∧ (ClientM.run oracle (DatabasesAsyncEndpoint.query database_id kwargs)).1.map
          Request.query = [none])
    ∧ ((ClientM.run oracle (DatabasesAsyncEndpoint.retrieve database_id kwargs)).1.map
          Request.query = [none]
      ∧ (ClientM.run oracle (DatabasesAsyncEndpoint.retrieve database_id kwargs)).1.map
          Request.body = [none])
    ∧ ((ClientM.run oracle (PagesAsyncEndpoint.create kwargs)).1.map
          Request.body = [some (pick kwargs ["parent", "properties", "children"])]
      ∧ (ClientM.run oracle (PagesAsyncEndpoint.create kwargs)).1.map
          Request.query = [none])
    ∧ ((ClientM.run oracle (PagesAsyncEndpoint.retrieve page_id kwargs)).1.map
          Request.query = [none]
      ∧ (ClientM.run oracle (PagesAsyncEndpoint.retrieve page_id kwargs)).1.map
          Request.body = [none])
    ∧ ((ClientM.run oracle (PagesAsyncEndpoint.update page_id kwargs)).1.map
          Request.body = [some (pick kwargs ["archived", "properties"])]
      ∧ (ClientM.run oracle (PagesAsyncEndpoint.update page_id kwargs)).1.map
          Request.query = [none])
    ∧ ((ClientM.run oracle (UsersAsyncEndpoint.list udec kwargs)).1.map
          Request.query = [some (pick kwargs ["start_cursor", "page_size"])]
      ∧ (ClientM.run oracle (UsersAsyncEndpoint.list udec kwargs)).1.map
          Request.body = [none])
    ∧ ((ClientM.run oracle (UsersAsyncEndpoint.retrieve user_id kwargs)).1.map
          Request.query = [none]
      ∧ (ClientM.run oracle (UsersAsyncEndpoint.retrieve user_id kwargs)).1.map
          Request.body = [none])
    ∧ ((ClientM.run oracle (SearchAsyncEndpoint.call kwargs)).1.map
          Request.body = [some (pick kwargs ["query", "sort", "filter", "start_cursor", "page_size"])]
      ∧ (ClientM.run oracle (SearchAsyncEndpoint.call kwargs)).1.map
          Request.query = [none]) := by
  refine ⟨pick_keys_subset kwargs keys, pick_idem kwargs keys, ?_⟩
  simp [append_trace, blocks_list_trace, databases_create_trace, databases_list_trace,
    databases_query_trace, databases_retrieve_trace, pages_create_trace,
    pages_retrieve_trace, pages_update_trace, users_list_trace,
    users_retrieve_trace, search_trace]

/-- C8: `Search` issues a POST to `/search` with body restricted to
`{query, sort, filter, start_cursor, page_size}`, and decodes the response as a
paginated list whose result items are each decoded as Page or Database by that
item's own discriminator. -/
theorem search_posts_and_decodes_union (kwargs : Kwargs)
    (oracle : Request → Except String Json) :
    ((ClientM.run oracle (SearchAsyncEndpoint.call kwargs)).1
      = [{ path := "/search", method := "POST",
           query := none,
           body := some (pick kwargs ["query", "sort", "filter", "start_cursor", "page_size"]),
           auth := some (kwargsGet kwargs "auth") }])
    ∧ (∀ (k : String) (v : Json),
        ((k, v) ∈ pick kwargs ["query", "sort", "filter", "start_cursor", "page_size"] ↔
          ((k, v) ∈ kwargs ∧
            (k = "query" ∨ k = "sort" ∨ k = "filter" ∨ k = "start_cursor" ∨ k = "page_size"))))
    ∧ (∀ resp : Json,
        (ClientM.run (fun _ => .ok resp) (SearchAsyncEndpoint.call kwargs)).2
          = .ok (PaginatedList.parse_obj PageOrDatabase.parse_obj resp))
    ∧ (∀ (items : List Json) (cursor more : Json),
        (PaginatedList.parse_obj PageOrDatabase.parse_obj
            (Json.obj [("results", Json.arr items), ("next_cursor", cursor),
              ("has_more", more)])).results
          = items.map PageOrDatabase.parse_obj)
    ∧ (∀ item : Json, item.pyGet "type" = Json.str "page" →
        PageOrDatabase.parse_obj item = .page (Page.parse_obj item))
    ∧ (∀ item : Json, item.pyGet "type" = Json.str "database" →
        PageOrDatabase.parse_obj item = .database (Database.parse_obj item)) := by
  refine ⟨search_trace oracle kwargs, ?_, ?_, ?_, ?_, ?_⟩
  · intro k v
    rw [mem_pick]
    simp
  · intro resp
    rfl
  · intro items cursor more
    rfl
  · intro item h
    simp [PageOrDatabase.parse_obj, h]
  · intro item h
    simp [PageOrDatabase.parse_obj, h]

/-- Witness for C8: a `page`-typed item decodes as a Page and a
`database`-typed item decodes as a Database. -/
theorem search_posts_and_decodes_union_witness :
    (PageOrDatabase.parse_obj (Json.obj [("type", Json.str "page")])
      = PageOrDatabase.page (Page.parse_obj (Json.obj [("type", Json.str "page")])))
    ∧ (PageOrDatabase.parse_obj (Json.obj [("type", Json.str "database")])
      = PageOrDatabase.database (Database.parse_obj (Json.obj [("type", Json.str "database")]))) :=
  ⟨(search_posts_and_decodes_union [] (fun _ => Except.ok Json.null)).2.2.2.2.1
      (Json.obj [("type", Json.str "page")]) rfl,
   (search_posts_and_decodes_union [] (fun _ => Except.ok Json.null)).2.2.2.2.2
      (Json.obj [("type", Json.str "database")]) rfl⟩

end NotionSdk
